import Mathlib

/-!
Verification of the webmcast relay server (src/webmcast/server.py) against its
natural-language specification.

The repository code under src/ is a thin asyncio server around a native EBML
parser (the package webmcast/c, whose C source is not part of src/) and the
cno HTTP/channel library.  Python functions are embedded as pure Lean
functions; the mutable registry dictionaries become an explicit ServerState
threaded through transition functions; exceptions become Except/Option
results.  Parts that live in webmcast/c are modelled from the spec and are
marked as such in their doc comments.
-/

namespace Webmcast

/-! ## Subscriber channel and the chunk callback (server.py lines 12-18)

The subscriber queue is a cno.Channel.  cno is not part of this repository;
the channel is modelled from the spec: a bounded channel of byte chunks with
capacity 1 in the source, whose put_nowait raises when the channel is full. -/

/-- Modelled from the spec: a bounded channel of byte chunks
(spec section 3, Subscriber: queue is a bounded channel with capacity 1 in the
source).  `put_nowait` returns `none` when the channel is full, standing for
the QueueFull exception. -/
structure Channel where
  cap : Nat
  items : List (List Nat)
deriving DecidableEq

/-- Number of buffered chunks, Python qsize(). -/
def Channel.qsize (q : Channel) : Nat := q.items.length

/-- Modelled from the spec: put_nowait on a bounded channel; fails (raises)
when the channel already holds `cap` chunks. -/
def Channel.put_nowait (q : Channel) (x : List Nat) : Option Channel :=
  if q.cap ≤ q.items.length then none
  else some { q with items := q.items ++ [x] }

/-- The C-side chunk callback, server.py lines 12-18.  The cffi decorator
`ffi.def_extern` with error value -1 makes the callback return -1 to the C
caller whenever the Python body raises; the raising case here is put_nowait
on a full channel.  A non-forced chunk offered to a non-empty queue is
dropped with return value -1 (line 15-16). -/
def on_chunk_cb (q : Channel) (data : List Nat) (force : Bool) : Int × Channel :=
  if !force && q.qsize > 0 then (-1, q)
  else
    match q.put_nowait data with
    | some q' => (0, q')
    | none => (-1, q)

/-! ## Association lists: the registry dictionaries

server.py line 49-50 keeps two module-level dictionaries: `streams`, a
weak-valued dictionary from stream id to Broadcast, and `collectors`, from
stream id to the pending reap future.  Both are modelled as association
lists; weak-reference semantics are made explicit through reference flags on
the entries (see Entry below). -/

def alget {κ α : Type} [DecidableEq κ] : List (κ × α) → κ → Option α
  | [], _ => none
  | (k, v) :: rest, key => if k = key then some v else alget rest key

def alset {κ α : Type} [DecidableEq κ] : List (κ × α) → κ → α → List (κ × α)
  | [], key, v => [(key, v)]
  | (k, w) :: rest, key, v =>
    if k = key then (key, v) :: rest else (k, w) :: alset rest key v

/-- Removal of a key (dict.pop / garbage collection of a weak entry).  Keys in
the modelled dictionaries are unique, so removing every binding of the key
coincides with removing the one binding. -/
def alerase {κ α : Type} [DecidableEq κ] : List (κ × α) → κ → List (κ × α)
  | [], _ => []
  | (k, w) :: rest, key =>
    if k = key then alerase rest key else (k, w) :: alerase rest key

/-! ## The Broadcast object (server.py lines 21-46) and the native parser

The Broadcast class subclasses asyncio.Event (its set flag is the stop
signal, lines 29-30) and wraps a native parser object created by
broadcast_start.  The native functions broadcast_send / broadcast_connect
live in webmcast/c, which is not under src/, so they are modelled from the
spec. -/

/-- Broadcast state visible to the server: the asyncio.Event flag set by
stop() (lines 29-30) and the native parser object, modelled as the bytes
consumed so far. -/
structure BroadcastM where
  stopped : Bool
  buf : List Nat
deriving DecidableEq

/-- The EBML element id 0x1A45DFA3, spec section 4.1. -/
def ebmlId : List Nat := [0x1A, 0x45, 0xDF, 0xA3]

/-- Modelled from the spec: the validity check the native parser applies to a
stream head (webmcast/c is not under src/).  Spec section 4.1, Failure: the
parse fails with BadContainer when a VINT overflows 8 bytes (a leading byte
with no set bit) or when the first element is not EBML; both amount to the
first four bytes having to agree with the EBML element id as far as they have
arrived. -/
def ebmlHeadOk (buf : List Nat) : Bool :=
  buf.isPrefixOf ebmlId || ebmlId.isPrefixOf buf

/-- Modelled from the spec: native broadcast_send (webmcast/c, not under
src/), returning a nonzero status on BadContainer and 0 on success, updating
the parser state. -/
def broadcast_send (b : BroadcastM) (chunk : List Nat) : Int × BroadcastM :=
  let buf := b.buf ++ chunk
  if ebmlHeadOk buf then (0, { b with buf := buf }) else (1, b)

/-- Broadcast.send, server.py lines 32-35: a nonzero status from
broadcast_send raises ValueError, modelled as Except.error. -/
def Broadcast.send (b : BroadcastM) (chunk : List Nat) : Except Unit BroadcastM :=
  match broadcast_send b chunk with
  | (code, b') => if code ≠ 0 then .error () else .ok b'

/-- Broadcast.stop, server.py lines 29-30: sets the asyncio.Event, which
wakes every subscriber writer blocked on stream.wait() (line 91). -/
def Broadcast.stop (b : BroadcastM) : BroadcastM := { b with stopped := true }

/-! ## The subscriber slot table: Broadcast.connect (server.py lines 37-42) -/

/-- Modelled from the spec: the native parser object state that
broadcast_connect consults (webmcast/c, not under src/): the retained header
buffer (spec section 3), the currently open cluster head, and the occupied
subscriber slots. -/
structure NativeObj where
  maxSlots : Nat
  slots : Nat
  headerClosed : Bool
  header : List Nat
  clusterHead : Option (List Nat)
deriving DecidableEq

/-- Priming a new subscriber, spec section 4.2: the header buffer (when the
header is closed and skip_headers is false) and the current cluster head are
forced pushes through the chunk callback. -/
def primeQueue (b : NativeObj) (q : Channel) (skip_headers : Bool) : Channel :=
  let q := if b.headerClosed && !skip_headers then (on_chunk_cb q b.header true).2 else q
  match b.clusterHead with
  | some ch => (on_chunk_cb q ch true).2
  | none => q

/-- Modelled from the spec: native broadcast_connect (webmcast/c, not under
src/) registers a subscriber slot and primes its queue; when no slot can be
allocated it returns a negative slot and leaves the queue untouched. -/
def broadcast_connect (b : NativeObj) (q : Channel) (skip_headers : Bool) :
    Int × NativeObj × Channel :=
  if b.slots < b.maxSlots then
    (Int.ofNat b.slots, { b with slots := b.slots + 1 }, primeQueue b q skip_headers)
  else (-1, b, q)

/-- Result of Broadcast.connect: either the MemoryError raised on a negative
slot (line 40-41) or the (handle, slot) pair returned on line 42; the handle
is the cffi handle of the queue, carried here as the queue itself. -/
inductive ConnectResult
  | memoryError (b : NativeObj) (q : Channel)
  | ok (slot : Int) (b : NativeObj) (q : Channel)
deriving DecidableEq

/-- Broadcast.connect, server.py lines 37-42. -/
def Broadcast.connect (b : NativeObj) (q : Channel) (skip_headers : Bool) :
    ConnectResult :=
  match broadcast_connect b q skip_headers with
  | (slot, b', q') => if slot < 0 then .memoryError b' q' else .ok slot b' q'

/-! ## The registry and the request handler (server.py lines 49-123)

server.py keeps `streams`, a weak-valued dictionary from stream id to
Broadcast, and `collectors`, from stream id to the pending reap future
(lines 49-50).  A weak-dictionary entry survives exactly as long as some
strong reference to the Broadcast does; the strong references in the
program are the publisher handler local (line 60/62), the collect closure
held by the collectors entry (lines 70-73), and each subscriber writer
closure (lines 83-94).  The model tracks them as explicit flags on the
registry entry and removes the entry when all are gone, which is CPython
reference-counting behaviour. -/

/-- Stream ids are the path-derived strings; characters keep the model
kernel-computable. -/
abbrev Name := List Char

/-- Status of a collect future in `collectors`: still sleeping, or already
fired.  A cancelled future is popped from the dictionary at cancellation
time (line 57), so no cancelled state is needed. -/
inductive TimerStatus
  | pending
  | done
deriving DecidableEq

/-- A collect future (server.py lines 70-73): asyncio.sleep for `delay`
seconds, then stream.stop(). -/
structure Timer where
  delay : Nat
  status : TimerStatus
deriving DecidableEq

/-- One entry of the weak-valued `streams` dictionary: the Broadcast, its
identity tag (Python object identity), and the strong references that keep
it alive. -/
structure Entry where
  bid : Nat
  b : BroadcastM
  pubRef : Bool
  reapRef : Bool
  subRefs : Nat
deriving DecidableEq

/-- An entry with no strong references: the weak dictionary drops it. -/
def entryDead (e : Entry) : Bool := !e.pubRef && !e.reapRef && e.subRefs == 0

/-- The registry: the two module-level dictionaries of server.py lines 49-50
plus a counter for fresh Broadcast identities. -/
structure ServerState where
  streams : List (Name × Entry)
  collectors : List (Name × Timer)
  nextId : Nat
deriving DecidableEq

/-- The empty registry at process start. -/
def s0 : ServerState := ⟨[], [], 0⟩

/-- Body of an HTTP response: either literal bytes or the subscriber channel
streamed as the body (line 98). -/
inductive RespBody
  | bytes (s : String)
  | queueBody
deriving DecidableEq

/-- An HTTP response as issued by req.respond(status, headers, body). -/
structure Response where
  status : Nat
  headers : List (String × String)
  body : RespBody
deriving DecidableEq

/-- Outcome of the publisher body loop, server.py lines 64-68: a read that
returns the empty bytes breaks out cleanly (eof), Broadcast.send raising
ValueError aborts the loop (badData), and a transport error on read aborts
it too (lost). -/
inductive BodyOutcome
  | eof
  | badData
  | lost
deriving DecidableEq

/-- The publisher body loop, server.py lines 64-68: read a chunk, break on
empty bytes, feed the chunk to Broadcast.send, stop when send raises.  The
request body is carried as the list of chunks the reads would return, with
`disc` true when the connection drops before a clean end of body. -/
def sendLoop : BroadcastM → List (List Nat) → Bool → BroadcastM × BodyOutcome
  | b, [], disc => (b, if disc then .lost else .eof)
  | b, chunk :: rest, disc =>
    if chunk = [] then (b, .eof)
    else
      match Broadcast.send b chunk with
      | .ok b' => sendLoop b' rest disc
      | .error _ => (b, .badData)

/-- Result of the POST-arrival check, server.py lines 55-62: either the 403
rejection (line 59) with the registry untouched, or the Broadcast to feed:
the resumed one (lines 57, 60) or a freshly registered one (line 62).  In
both proceed cases the handler local `stream` holds a strong reference, so
pubRef is set; popping the pending collect future (line 57) cancels it and
drops the strong reference its closure held. -/
inductive ArriveResult
  | reject (s : ServerState) (resp : Response)
  | proceed (e : Entry) (s : ServerState)
deriving DecidableEq

/-- POST arrival, server.py lines 55-62. -/
def postArrive (s : ServerState) (name : Name) : ArriveResult :=
  match alget s.streams name with
  | some e =>
    match alget s.collectors name with
    | some _t =>
      let e' : Entry := { e with pubRef := true, reapRef := false }
      .proceed e' { s with streams := alset s.streams name e',
                           collectors := alerase s.collectors name }
    | none => .reject s ⟨403, [], .bytes "stream id already taken"⟩
  | none =>
    let e : Entry := ⟨s.nextId, ⟨false, []⟩, true, false, 0⟩
    .proceed e { s with streams := alset s.streams name e,
                        nextId := s.nextId + 1 }

/-- The collect future scheduled in the finally block, server.py lines
69-73: sleep 10 seconds, then stream.stop(). -/
def reapTimer : Timer := ⟨10, .pending⟩

/-- Modelled from the spec: the response of the publisher transport when
Broadcast.send raises out of the handler (cno, outside this repository).
Spec sections 4.2 and 7: the publisher transport MUST convert the
BadContainer error to HTTP 400 and tear the session down; the body carries
the ValueError message of line 35. -/
def transportBadContainer : Response := ⟨400, [], .bytes "bad data"⟩

/-- The POST branch of handle, server.py lines 54-74.  The finally block
(lines 69-73) runs on every exit of the body loop and installs the collect
future; the handler frame then dies, dropping its strong reference (pubRef),
while the collect closure keeps one (reapRef).  A clean end of body answers
204 (line 74); a ValueError from send propagates to the transport, which
answers 400; a dropped publisher connection gets no response. -/
def handlePost (s : ServerState) (name : Name) (chunks : List (List Nat))
    (disc : Bool) : ServerState × Option Response :=
  match postArrive s name with
  | .reject s' resp => (s', some resp)
  | .proceed e s' =>
    match sendLoop e.b chunks disc with
    | (b', outcome) =>
      let e' : Entry := { e with b := b', pubRef := false, reapRef := true }
      let s'' : ServerState :=
        { s' with streams := alset s'.streams name e',
                  collectors := alset s'.collectors name reapTimer }
      match outcome with
      | .eof => (s'', some ⟨204, [], .bytes ""⟩)
      | .badData => (s'', some transportBadContainer)
      | .lost => (s'', none)

/-- The subscriber branch of handle, server.py lines 76-100: a missing
stream answers 404 (line 79); otherwise a fresh channel is created, the
writer task connects it to the Broadcast (line 84, one more strong
reference) and the response streams the channel as its body with status 200
and the content-type header of line 98. -/
def handleGet (s : ServerState) (name : Name) : ServerState × Response :=
  match alget s.streams name with
  | none => (s, ⟨404, [], .bytes "this stream is offline"⟩)
  | some e =>
    ({ s with streams := alset s.streams name { e with subRefs := e.subRefs + 1 } },
     ⟨200, [("content-type", "video/webm")], .queueBody⟩)

/-- Firing of a pending collect future for `name`, server.py lines 70-73:
after the 10 second sleep, stream.stop() sets the event and every subscriber
writer blocked on stream.wait() wakes; the coroutine then finishes, dropping
the strong reference its closure held, and if no other reference remains the
weak-valued dictionary loses the entry.  The finished future stays in
`collectors`. -/
def reapFire (s : ServerState) (name : Name) : ServerState :=
  match alget s.collectors name, alget s.streams name with
  | some t, some e =>
    if t.status = .pending then
      let e' : Entry := { e with b := Broadcast.stop e.b, reapRef := false }
      { s with streams := if entryDead e' then alerase s.streams name
                          else alset s.streams name e',
               collectors := alset s.collectors name { t with status := .done } }
    else s
  | _, _ => s

/-! ## The top-level handler (server.py lines 49-123) -/

/-- An HTTP request as the handler sees it: the method, the raw path, and
for POST the body chunks (with `disconnected` true when the body ends by
connection loss instead of clean EOF). -/
structure Req where
  method : String
  path : String
  chunks : List (List Nat)
  disconnected : Bool
deriving DecidableEq

/-- Python str.lstrip with the slash character, server.py line 52. -/
def lstripSlash (l : List Char) : List Char := l.dropWhile (fun c => c = '/')

/-- Python str.strip with the slash character, server.py line 105. -/
def stripSlash (l : List Char) : List Char :=
  ((l.dropWhile (fun c => c = '/')).reverse.dropWhile (fun c => c = '/')).reverse

/-- Python slicing [:-5], server.py line 52: drop the .webm suffix. -/
def dropWebmSuffix (l : List Char) : List Char := l.take (l.length - 5)

/-- The handle coroutine, server.py lines 49-123.  Paths ending in .webm are
stream endpoints: POST publishes, every other method subscribes (lines
54-100).  Other paths answer 405 unless the method is GET (lines 102-103),
else 404 for unknown streams (lines 107-108) or the HTML player page (lines
110-123, whose markup is elided here as a fixed marker body since no claim
concerns it). -/
def handle (s : ServerState) (req : Req) : ServerState × Option Response :=
  if ".webm".data.isSuffixOf req.path.data then
    let stream_id : Name := dropWebmSuffix (lstripSlash req.path.data)
    if req.method = "POST" then
      handlePost s stream_id req.chunks req.disconnected
    else
      match handleGet s stream_id with
      | (s', r) => (s', some r)
  else if req.method ≠ "GET" then
    (s, some ⟨405, [], .bytes "/stream_name**.webm**"⟩)
  else
    match alget s.streams (stripSlash req.path.data) with
    | none => (s, some ⟨404, [], .bytes "this stream is offline"⟩)
    | some _ => (s, some ⟨200, [("content-type", "text/html")], .bytes "<!doctype html>"⟩)

/-! ## Lemmas on the registry dictionaries -/

theorem alget_alset_self {κ α : Type} [DecidableEq κ]
    (l : List (κ × α)) (k : κ) (v : α) : alget (alset l k v) k = some v := by
  induction l with
  | nil => simp [alset, alget]
  | cons p rest ih =>
    obtain ⟨k', w⟩ := p
    by_cases h : k' = k
    · simp [alset, alget, h]
    · simp [alset, alget, h, ih]

theorem alget_alset_ne {κ α : Type} [DecidableEq κ]
    (l : List (κ × α)) (k k' : κ) (v : α) (h : k' ≠ k) :
    alget (alset l k v) k' = alget l k' := by
  have hk : ∀ k₀ : κ, k₀ = k → ¬k₀ = k' := by
    rintro k₀ rfl hh
    exact h hh.symm
  induction l with
  | nil =>
    simp [alset, alget]
    exact hk k rfl
  | cons p rest ih =>
    obtain ⟨k₀, w⟩ := p
    by_cases h0 : k₀ = k
    · subst h0
      simp [alset, alget, hk k₀ rfl]
    · simp [alset, alget, h0, ih]

theorem alget_alerase_self {κ α : Type} [DecidableEq κ]
    (l : List (κ × α)) (k : κ) : alget (alerase l k) k = none := by
  induction l with
  | nil => simp [alerase, alget]
  | cons p rest ih =>
    obtain ⟨k', w⟩ := p
    by_cases h : k' = k
    · simp [alerase, alget, h, ih]
    · simp [alerase, alget, h, ih]

/-- The registry state handlePost leaves behind does not depend on the body
outcome: the finally block of server.py lines 69-73 runs on clean EOF, on a
ValueError from send, and on a lost connection alike. -/
theorem handlePost_state (s : ServerState) (name : Name)
    (chunks : List (List Nat)) (disc : Bool) (e : Entry) (s' : ServerState)
    (ha : postArrive s name = .proceed e s') :
    (handlePost s name chunks disc).1 =
      { s' with
        streams := alset s'.streams name
          { e with b := (sendLoop e.b chunks disc).1, pubRef := false, reapRef := true },
        collectors := alset s'.collectors name reapTimer } := by
  unfold handlePost
  rw [ha]
  rcases h : sendLoop e.b chunks disc with ⟨b', outcome⟩
  cases outcome <;> simp [h]

/-! ## The claims -/

/-- C3: dispatching a forced element (header bytes or cluster head) to a
subscriber whose capacity-1 queue is already occupied does not enqueue it;
the chunk callback returns -1 to the publisher side. -/
theorem c3_forced_push_overflow (q : Channel) (data : List Nat)
    (hcap : q.cap = 1) (hfull : 0 < q.qsize) :
    on_chunk_cb q data true = (-1, q) := by
  have h1 : q.cap ≤ q.items.length := by
    rw [hcap]
    exact hfull
  simp [on_chunk_cb, Channel.put_nowait, h1]

theorem c3_forced_push_overflow_witness :
    on_chunk_cb ⟨1, [[26]]⟩ [0] true = (-1, ⟨1, [[26]]⟩) :=
  c3_forced_push_overflow ⟨1, [[26]]⟩ [0] rfl (by decide)

/-- C4: a non-forced element offered to a subscriber whose queue already
holds a buffered chunk is dropped: the callback returns -1 without
enqueueing, so a non-forced dispatch never leaves more than one buffered
chunk in the queue. -/
theorem c4_nonforced_drop (q : Channel) (data : List Nat) :
    (0 < q.qsize → on_chunk_cb q data false = (-1, q)) ∧
    (q.qsize ≤ 1 → ((on_chunk_cb q data false).2).qsize ≤ 1) := by
  obtain ⟨cap, items⟩ := q
  cases items with
  | nil =>
    refine ⟨fun h => absurd h (by simp [Channel.qsize]), fun _ => ?_⟩
    by_cases hc : cap ≤ 0
    · simp [on_chunk_cb, Channel.put_nowait, Channel.qsize, hc]
    · simp [on_chunk_cb, Channel.put_nowait, Channel.qsize, hc]
  | cons x rest =>
    have hcb : on_chunk_cb ⟨cap, x :: rest⟩ data false = (-1, ⟨cap, x :: rest⟩) := by
      simp [on_chunk_cb, Channel.qsize]
    exact ⟨fun _ => hcb, fun h => by simpa [hcb, Channel.qsize] using h⟩

theorem c4_nonforced_drop_witness :
    on_chunk_cb ⟨1, [[7]]⟩ [8] false = (-1, ⟨1, [[7]]⟩) ∧
    ((on_chunk_cb ⟨1, []⟩ [8] false).2).qsize ≤ 1 :=
  ⟨(c4_nonforced_drop ⟨1, [[7]]⟩ [8]).1 (by decide),
   (c4_nonforced_drop ⟨1, []⟩ [8]).2 (by decide)⟩

/-- C10: Broadcast.connect raises MemoryError exactly when the native
broadcast_connect returns a negative slot, leaving the queue untouched on
that path; otherwise it returns the (handle, slot) pair with the nonnegative
slot the native call produced. -/
theorem c10_connect_memory_error (b : NativeObj) (q : Channel)
    (skip_headers : Bool) :
    match Broadcast.connect b q skip_headers with
    | .memoryError b' q' =>
        (broadcast_connect b q skip_headers).1 < 0 ∧ b' = b ∧ q' = q
    | .ok slot _ _ => 0 ≤ slot ∧ slot = (broadcast_connect b q skip_headers).1 := by
  unfold Broadcast.connect broadcast_connect
  by_cases h : b.slots < b.maxSlots
  · have h0 : ¬((b.slots : Int) < 0) := by omega
    simp [h, h0]
  · simp [h]

/-- C5 counterexample: the claim promises 403 for every POST that finds a
live Broadcast with no pending reap timer, but line 57 only ever removes a
collect future by popping it on POST arrival, never when it fires, so a
stale done future can sit in collectors next to a live Broadcast.  The
scenario below reaches such a state through the model transitions: a first
POST completes, its reap fires (the entry is collected, the done future
stays), a second publisher POSTs (line 62 registers a fresh live Broadcast
without touching collectors) and is still mid-body.  A third POST then
finds the name live with no pending reap timer, yet it is not answered 403:
it pops the stale done future on line 57 without a KeyError and proceeds on
the same live Broadcast, here finishing with 204 and mutating the
registry. -/
theorem c5_name_in_use_counterexample :
    postArrive (reapFire (handlePost s0 ['x'] [] false).1 ['x']) ['x'] =
      .proceed ⟨1, ⟨false, []⟩, true, false, 0⟩
        ⟨[(['x'], ⟨1, ⟨false, []⟩, true, false, 0⟩)], [(['x'], ⟨10, .done⟩)], 2⟩ ∧
    (handlePost ⟨[(['x'], ⟨1, ⟨false, []⟩, true, false, 0⟩)],
        [(['x'], ⟨10, .done⟩)], 2⟩ ['x'] [] false).2 = some ⟨204, [], .bytes ""⟩ ∧
    (handlePost ⟨[(['x'], ⟨1, ⟨false, []⟩, true, false, 0⟩)],
        [(['x'], ⟨10, .done⟩)], 2⟩ ['x'] [] false).1 ≠
      ⟨[(['x'], ⟨1, ⟨false, []⟩, true, false, 0⟩)], [(['x'], ⟨10, .done⟩)], 2⟩ := by
  decide

/-- C5 amended: a POST for a name whose registry entry is live with no
collectors entry at all (no reap future, pending or already fired and left
stale) is answered 403 with body stream id already taken, and the registry,
the existing Broadcast, its subscribers and the collectors dictionary are
unchanged; with a stale fired future still in collectors the POST instead
pops it and proceeds on the same live Broadcast (see the counterexample). -/
theorem c5_name_in_use_403 (s : ServerState) (name : Name) (e : Entry)
    (chunks : List (List Nat)) (disc : Bool)
    (hs : alget s.streams name = some e)
    (hc : alget s.collectors name = none) :
    handlePost s name chunks disc =
      (s, some ⟨403, [], .bytes "stream id already taken"⟩) := by
  simp [handlePost, postArrive, hs, hc]

theorem c5_name_in_use_403_witness :
    handlePost ⟨[(['x'], ⟨0, ⟨false, []⟩, true, false, 0⟩)], [], 1⟩ ['x'] [[1]] false =
      (⟨[(['x'], ⟨0, ⟨false, []⟩, true, false, 0⟩)], [], 1⟩,
       some ⟨403, [], .bytes "stream id already taken"⟩) :=
  c5_name_in_use_403 _ ['x'] ⟨0, ⟨false, []⟩, true, false, 0⟩ [[1]] false rfl rfl

/-- C6: a POST for a name whose registry entry is live with a pending reap
future pops the future from the collectors dictionary, so it can never fire,
and resumes the very same Broadcast entry (same identity, same event state,
same subscriber count) for the new publisher. -/
theorem c6_reconnect_resumes (s : ServerState) (name : Name) (e : Entry)
    (t : Timer)
    (hs : alget s.streams name = some e)
    (hc : alget s.collectors name = some t)
    (_hp : t.status = .pending) :
    postArrive s name =
      .proceed { e with pubRef := true, reapRef := false }
        { s with streams := alset s.streams name { e with pubRef := true, reapRef := false },
                 collectors := alerase s.collectors name } ∧
    alget (alerase s.collectors name) name = none ∧
    reapFire { s with streams := alset s.streams name { e with pubRef := true, reapRef := false },
                      collectors := alerase s.collectors name } name =
      { s with streams := alset s.streams name { e with pubRef := true, reapRef := false },
               collectors := alerase s.collectors name } := by
  refine ⟨by simp [postArrive, hs, hc], alget_alerase_self _ _, ?_⟩
  simp [reapFire, alget_alerase_self]

theorem c6_reconnect_resumes_witness :
    postArrive ⟨[(['x'], ⟨0, ⟨false, []⟩, false, true, 2⟩)], [(['x'], reapTimer)], 1⟩ ['x'] =
      .proceed ⟨0, ⟨false, []⟩, true, false, 2⟩
        ⟨[(['x'], ⟨0, ⟨false, []⟩, true, false, 2⟩)], [], 1⟩ := by
  have h := c6_reconnect_resumes
      ⟨[(['x'], ⟨0, ⟨false, []⟩, false, true, 2⟩)], [(['x'], reapTimer)], 1⟩ ['x']
      ⟨0, ⟨false, []⟩, false, true, 2⟩ reapTimer rfl rfl rfl
  exact h.1

/-- C1: when Broadcast.send rejects a chunk of publisher bytes, the
ValueError propagates out of the POST handler and the publisher transport
answers 400; the publisher session is torn down: the handler reference is
dropped (pubRef false) and only the scheduled reap future keeps the
Broadcast.  The witness instantiates this at a POST whose body is the single
byte 0x00. -/
theorem c1_bad_container_400 (s : ServerState) (name : Name)
    (chunks : List (List Nat)) (disc : Bool) (e : Entry) (s' : ServerState)
    (b' : BroadcastM)
    (ha : postArrive s name = .proceed e s')
    (hb : sendLoop e.b chunks disc = (b', .badData)) :
    (handlePost s name chunks disc).2 = some transportBadContainer ∧
    transportBadContainer.status = 400 ∧
    alget (handlePost s name chunks disc).1.streams name =
      some { e with b := b', pubRef := false, reapRef := true } ∧
    alget (handlePost s name chunks disc).1.collectors name = some reapTimer := by
  have hst := handlePost_state s name chunks disc e s' ha
  refine ⟨by simp [handlePost, ha, hb], rfl, ?_, ?_⟩
  · rw [hst, hb]
    exact alget_alset_self _ _ _
  · rw [hst]
    exact alget_alset_self _ _ _

theorem c1_bad_container_400_witness :
    (handlePost s0 ['x'] [[0]] false).2 = some transportBadContainer ∧
    transportBadContainer.status = 400 := by
  have h := c1_bad_container_400 s0 ['x'] [[0]] false
      ⟨0, ⟨false, []⟩, true, false, 0⟩
      ⟨[(['x'], ⟨0, ⟨false, []⟩, true, false, 0⟩)], [], 1⟩
      ⟨false, []⟩ (by decide) (by decide)
  exact ⟨h.1, h.2.1⟩

/-- C2 counterexample: the claim says a GET after a POST whose body failed
container validation is answered 404 because no Broadcast remains visible;
in the code the Broadcast is registered before any send (line 62) and the
collect closure of the finally block keeps it alive, so a GET right after
the failed POST of the single byte 0x00 is answered 200. -/
theorem c2_registry_unchanged_counterexample :
    (handle (handlePost s0 ['x'] [[0]] false).1 ⟨"GET", "/x.webm", [], false⟩).2 =
      some ⟨200, [("content-type", "video/webm")], .queueBody⟩ := by decide

/-- C2 amended: a POST whose body fails container validation does create and
register a Broadcast for the name; the entry stays visible to subsequent
GETs, kept alive by the pending 10 second reap future, and only once that
future fires (no subscriber being attached) does a GET for the name observe
404. -/
theorem c2_amended_visible_until_reap (s : ServerState) (name : Name)
    (chunks : List (List Nat)) (disc : Bool) (e : Entry) (s' : ServerState)
    (b' : BroadcastM)
    (ha : postArrive s name = .proceed e s')
    (hb : sendLoop e.b chunks disc = (b', .badData))
    (hsub : e.subRefs = 0) :
    alget (handlePost s name chunks disc).1.streams name =
      some { e with b := b', pubRef := false, reapRef := true } ∧
    (handleGet (handlePost s name chunks disc).1 name).2.status = 200 ∧
    (handleGet (reapFire (handlePost s name chunks disc).1 name) name).2 =
      ⟨404, [], .bytes "this stream is offline"⟩ := by
  have hst := handlePost_state s name chunks disc e s' ha
  have h1 : alget (handlePost s name chunks disc).1.streams name =
      some { e with b := b', pubRef := false, reapRef := true } := by
    rw [hst, hb]
    exact alget_alset_self _ _ _
  have h2 : alget (handlePost s name chunks disc).1.collectors name = some reapTimer := by
    rw [hst]
    exact alget_alset_self _ _ _
  refine ⟨h1, by simp [handleGet, h1], ?_⟩
  have hdead : ∀ bb : BroadcastM,
      entryDead { e with b := bb, pubRef := false, reapRef := false } = true := by
    intro bb
    simp [entryDead, hsub]
  simp [reapFire, h1, h2, reapTimer, Broadcast.stop, hdead, handleGet,
        alget_alerase_self]

theorem c2_amended_visible_until_reap_witness :
    alget (handlePost s0 ['x'] [[0]] false).1.streams ['x'] =
      some ⟨0, ⟨false, []⟩, false, true, 0⟩ ∧
    (handleGet (handlePost s0 ['x'] [[0]] false).1 ['x']).2.status = 200 ∧
    (handleGet (reapFire (handlePost s0 ['x'] [[0]] false).1 ['x']) ['x']).2 =
      ⟨404, [], .bytes "this stream is offline"⟩ :=
  c2_amended_visible_until_reap s0 ['x'] [[0]] false
    ⟨0, ⟨false, []⟩, true, false, 0⟩
    ⟨[(['x'], ⟨0, ⟨false, []⟩, true, false, 0⟩)], [], 1⟩
    ⟨false, []⟩ (by decide) (by decide) rfl

/-- C7: every exit of the publisher body loop (clean EOF, ValueError from
send, lost connection) installs a pending 10 second reap future for the
name; firing it calls stop() on the Broadcast, setting the event every
subscriber writer waits on, and when no subscriber reference remains the
weak registry entry disappears; a publisher reconnect before the firing
pops the future from the collectors dictionary so it can never fire. -/
theorem c7_reap_lifecycle (s : ServerState) (name : Name)
    (chunks : List (List Nat)) (disc : Bool) (e : Entry) (s' : ServerState)
    (ha : postArrive s name = .proceed e s') :
    alget (handlePost s name chunks disc).1.collectors name = some reapTimer ∧
    reapTimer = ⟨10, .pending⟩ ∧
    (e.subRefs = 0 →
      alget (reapFire (handlePost s name chunks disc).1 name).streams name = none) ∧
    (0 < e.subRefs →
      alget (reapFire (handlePost s name chunks disc).1 name).streams name =
        some { e with b := Broadcast.stop (sendLoop e.b chunks disc).1,
                      pubRef := false, reapRef := false } ∧
      (Broadcast.stop (sendLoop e.b chunks disc).1).stopped = true) ∧
    (postArrive (handlePost s name chunks disc).1 name =
      .proceed
        { e with b := (sendLoop e.b chunks disc).1, pubRef := true, reapRef := false }
        { (handlePost s name chunks disc).1 with
          streams := alset (handlePost s name chunks disc).1.streams name
            { e with b := (sendLoop e.b chunks disc).1, pubRef := true, reapRef := false },
          collectors := alerase (handlePost s name chunks disc).1.collectors name } ∧
     alget (alerase (handlePost s name chunks disc).1.collectors name) name = none) := by
  have hst := handlePost_state s name chunks disc e s' ha
  have h1 : alget (handlePost s name chunks disc).1.streams name =
      some { e with b := (sendLoop e.b chunks disc).1, pubRef := false, reapRef := true } := by
    rw [hst]
    exact alget_alset_self _ _ _
  have h2 : alget (handlePost s name chunks disc).1.collectors name = some reapTimer := by
    rw [hst]
    exact alget_alset_self _ _ _
  refine ⟨h2, rfl, ?_, ?_, ?_, alget_alerase_self _ _⟩
  · intro hsub
    have hdead : ∀ bb : BroadcastM,
        entryDead { e with b := bb, pubRef := false, reapRef := false } = true := by
      intro bb
      simp [entryDead, hsub]
    simp [reapFire, h1, h2, reapTimer, Broadcast.stop, hdead, alget_alerase_self]
  · intro hsub
    have hdead : ∀ bb : BroadcastM,
        entryDead { e with b := bb, pubRef := false, reapRef := false } = false := by
      intro bb
      simp [entryDead]
      omega
    constructor
    · simp [reapFire, h1, h2, reapTimer, Broadcast.stop, hdead, alget_alset_self]
    · simp [Broadcast.stop]
  · simp [postArrive, h1, h2]

theorem c7_reap_lifecycle_witness :
    alget (handlePost s0 ['x'] [] false).1.collectors ['x'] = some reapTimer ∧
    alget (reapFire (handlePost s0 ['x'] [] false).1 ['x']).streams ['x'] = none := by
  have h := c7_reap_lifecycle s0 ['x'] [] false
      ⟨0, ⟨false, []⟩, true, false, 0⟩
      ⟨[(['x'], ⟨0, ⟨false, []⟩, true, false, 0⟩)], [], 1⟩ (by decide)
  exact ⟨h.1, h.2.2.1 rfl⟩

/-- C8 counterexample: the claim says the 200 response to a subscriber GET
carries both a content-type and a cache-control header; the respond call on
line 98 passes only the content-type header, so the cache-control header is
absent. -/
theorem c8_get_headers_counterexample :
    (handle (handlePost s0 ['x'] [] false).1 ⟨"GET", "/x.webm", [], false⟩).2.map
        (fun r => (r.status, List.lookup "cache-control" r.headers)) =
      some (200, none) := by decide

/-- C8 amended: a GET subscribing to a live stream is answered 200 with
content-type video/webm as the only header set by the handler and with the
subscriber channel as the response body; no cache-control header is sent. -/
theorem c8_amended_get_response (s : ServerState) (name : Name) (e : Entry)
    (hs : alget s.streams name = some e) :
    (handleGet s name).2 = ⟨200, [("content-type", "video/webm")], .queueBody⟩ ∧
    List.lookup "cache-control" (handleGet s name).2.headers = none := by
  have h : (handleGet s name).2 =
      ⟨200, [("content-type", "video/webm")], .queueBody⟩ := by
    simp [handleGet, hs]
  refine ⟨h, ?_⟩
  rw [h]
  decide

theorem c8_amended_get_response_witness :
    (handleGet ⟨[(['x'], ⟨0, ⟨false, []⟩, false, true, 0⟩)], [(['x'], reapTimer)], 1⟩ ['x']).2 =
      ⟨200, [("content-type", "video/webm")], .queueBody⟩ :=
  (c8_amended_get_response _ ['x'] ⟨0, ⟨false, []⟩, false, true, 0⟩ (by decide)).1

/-- C9 counterexample: the claim says a stream-path request with a method
other than GET, POST and HEAD is answered 405; in the code every non-POST
method on a .webm path takes the subscriber branch, so a DELETE of an
offline stream is answered 404, not 405. -/
theorem c9_method_counterexample :
    (handle s0 ⟨"DELETE", "/x.webm", [], false⟩).2 =
      some ⟨404, [], .bytes "this stream is offline"⟩ ∧ (404 : Nat) ≠ 405 := by
  decide

/-- C9 amended: the 405 answer arises only on paths that do not end in
.webm, for every method other than GET, and leaves the registry untouched;
a request to a .webm stream path with a non-POST method is served by the
subscriber branch and never answers 405. -/
theorem c9_amended_405 (s : ServerState) (req : Req) :
    ((".webm".data.isSuffixOf req.path.data) = false → req.method ≠ "GET" →
      handle s req = (s, some ⟨405, [], .bytes "/stream_name**.webm**"⟩)) ∧
    ((".webm".data.isSuffixOf req.path.data) = true → req.method ≠ "POST" →
      (handle s req).2 =
        some (handleGet s (dropWebmSuffix (lstripSlash req.path.data))).2) := by
  constructor
  · intro hw hm
    simp [handle, hw, hm]
  · intro hw hm
    rcases h : handleGet s (dropWebmSuffix (lstripSlash req.path.data)) with ⟨s', r⟩
    simp [handle, hw, hm, h]

theorem c9_amended_405_witness :
    handle s0 ⟨"POST", "/nope", [], false⟩ =
      (s0, some ⟨405, [], .bytes "/stream_name**.webm**"⟩) ∧
    (handle s0 ⟨"DELETE", "/x.webm", [], false⟩).2 =
      some (handleGet s0 ['x']).2 := by
  constructor
  · exact (c9_amended_405 s0 ⟨"POST", "/nope", [], false⟩).1 (by decide) (by decide)
  · exact (c9_amended_405 s0 ⟨"DELETE", "/x.webm", [], false⟩).2 (by decide) (by decide)

end Webmcast
